import Mathlib

/-!
# Deferred power commands: `powerCommandsCheck` (src/shutdown.h)

A shallow embedding of the polling routine `powerCommandsCheck` and of the
process-wide state it reads and writes, followed by theorems about one poll
and about sequences of polls.

The routine is stateful and calls into external subsystems.  The embedding
passes the globals explicitly (`State`), records every external call in a
trace together with the globals as they stand at the moment of the call
(`Event`), and records whether control comes back to the caller
(`Outcome.returned`).
-/

namespace PowerCommands

/-! ## Build configuration -/

/-- The arm of the `#if / #elif / #else` chain of lines 18-40 that a build compiles in. -/
inductive Variant where
  | esp32
  | nrf52
  | rp2040
  | portduino
  | stm32wl
  | unsupported
  deriving DecidableEq, Repr

/-- Build-time configuration: which `ARCH_*` macros are defined, and the width in bits of
the unsigned integer type of the two deadlines and of `millis()`.  The declarations of
`rebootAtMsec`, `shutdownAtMsec` (main.h) and of `millis()` are not under src/, so the
width is a parameter, shared by all three (32 on the supported microcontrollers). -/
structure Build where
  ARCH_ESP32 : Bool
  ARCH_NRF52 : Bool
  ARCH_RP2040 : Bool
  ARCH_PORTDUINO : Bool
  ARCH_STM32WL : Bool
  wordBits : Nat
  deriving DecidableEq, Repr

/-- The preprocessor chain of lines 18-40: the first defined macro selects the arm. -/
def variant (b : Build) : Variant :=
  if b.ARCH_ESP32 then .esp32
  else if b.ARCH_NRF52 then .nrf52
  else if b.ARCH_RP2040 then .rp2040
  else if b.ARCH_PORTDUINO then .portduino
  else if b.ARCH_STM32WL then .stm32wl
  else .unsupported

/-- A platform has a reset primitive unless the build falls into the `#else` arm. -/
def hasResetPrimitive (b : Build) : Bool :=
  variant b != .unsupported

/-- Only the Portduino arm (lines 25-33) runs teardown steps before its reset primitive. -/
def requiresTeardown (b : Build) : Bool :=
  variant b == .portduino

/-! ## Machine integers -/

/-- Conversion of an integer to the unsigned `w`-bit type (C conversion rule: modulo `2^w`). -/
def toUnsigned (w : Nat) (i : Int) : Nat :=
  (i % (2 ^ w : Int)).toNat

/-- The value stored by `rebootAtMsec = -1;` (line 38). -/
def sentinel (b : Build) : Nat :=
  toUnsigned b.wordBits (-1)

/-- Modelled from the spec: `millis()` is not under src/; the spec compares the deadlines
with the current monotonic time in milliseconds since boot.  As an unsigned machine integer
of `wordBits` bits, the value returned after `clock` elapsed milliseconds is `clock` modulo
`2^wordBits`. -/
def millis (b : Build) (clock : Nat) : Nat :=
  clock % 2 ^ b.wordBits

/-! ## Globals, external calls, outcomes -/

/-- The globals the routine reads or writes.  The two pointers are represented by
whether they are non-null, which is all that lines 26 and 31 test. -/
structure State where
  rebootAtMsec : Nat
  shutdownAtMsec : Nat
  aLinuxInputImpl : Bool
  screen : Bool
  deriving DecidableEq, Repr

/-- The three logging macros used by the routine. -/
inductive LogLevel where
  | info
  | debug
  | warn
  deriving DecidableEq, Repr

/-- The three log lines of the routine (lines 16, 33, 39). -/
inductive LogLine where
  | rebooting
  | finalReboot
  | fixmeImplementReboot
  deriving DecidableEq, Repr

/-- The message of each log line, as written in the source. -/
def LogLine.text : LogLine → String
  | .rebooting => "Rebooting"
  | .finalReboot => "final reboot!"
  | .fixmeImplementReboot =>
    "FIXME implement reboot for this platform. Note that some settings require a restart to be applied"

/-- Every call the routine makes outside itself, one constructor per call site. -/
inductive Call where
  | log (level : LogLevel) (line : LogLine)
  | notifyReboot
  | espRestart
  | nvicSystemReset
  | rp2040Reboot
  | deInitApiServer
  | linuxInputDeInit
  | spiEnd
  | wireEnd
  | serial1End
  | deleteScreen
  | reboot
  | halNvicSystemReset
  | powerShutdown
  deriving DecidableEq, Repr

/-- Log lines go to the logging facility; they are kept in the trace but are not counted
among the notification, teardown, reset and shutdown calls. -/
def Call.isLog : Call → Bool
  | .log _ _ => true
  | _ => false

/-- The reset primitives of the five supported platforms (lines 19, 21, 23, 34, 36). -/
def Call.isReset : Call → Bool
  | .espRestart => true
  | .nvicSystemReset => true
  | .rp2040Reboot => true
  | .reboot => true
  | .halNvicSystemReset => true
  | _ => false

/-- The teardown steps of lines 25-32. -/
def Call.isTeardown : Call → Bool
  | .deInitApiServer => true
  | .linuxInputDeInit => true
  | .spiEnd => true
  | .wireEnd => true
  | .serial1End => true
  | .deleteScreen => true
  | _ => false

/-- The reset primitive each arm of the chain invokes; none in the `#else` arm. -/
def resetPrimitive : Variant → Option Call
  | .esp32 => some .espRestart
  | .nrf52 => some .nvicSystemReset
  | .rp2040 => some .rp2040Reboot
  | .portduino => some .reboot
  | .stm32wl => some .halNvicSystemReset
  | .unsupported => none

/-- One external call together with the globals at the moment it is made. -/
structure Event where
  call : Call
  globals : State
  deriving DecidableEq, Repr

/-- What a run of the routine leaves behind: the globals, the calls made in order, and
whether control returned to the caller. -/
structure Outcome where
  state : State
  trace : List Event
  returned : Bool
  deriving DecidableEq, Repr

/-- Entry of the routine: nothing called yet. -/
def Outcome.start (s : State) : Outcome :=
  { state := s, trace := [], returned := true }

/-- Modelled from the spec: the callees (`notifyObservers`, the teardown steps, the logging
macros, `power->shutdown()`) are not under src/; the spec has them called in order
(synchronous notification, best-effort teardown, a shutdown whose result is not inspected),
so each is an external call that returns to the routine, recorded with the globals at the
moment of the call. -/
def Outcome.emit (o : Outcome) (c : Call) : Outcome :=
  { o with trace := o.trace ++ [{ call := c, globals := o.state }] }

/-- Modelled from the spec: the bodies of `ESP.restart`, `NVIC_SystemReset`,
`rp2040.reboot`, `reboot` and `HAL_NVIC_SystemReset` are not under src/; the spec says each
platform variant exposes a no-argument, non-returning (or process-exiting) reset operation,
so each is an external call after which control does not come back. -/
def Outcome.emitNoReturn (o : Outcome) (c : Call) : Outcome :=
  { o with trace := o.trace ++ [{ call := c, globals := o.state }], returned := false }

/-- Assignment to `rebootAtMsec`. -/
def Outcome.setRebootAtMsec (o : Outcome) (v : Nat) : Outcome :=
  { o with state := { o.state with rebootAtMsec := v } }

/-- Assignment to `shutdownAtMsec`. -/
def Outcome.setShutdownAtMsec (o : Outcome) (v : Nat) : Outcome :=
  { o with state := { o.state with shutdownAtMsec := v } }

/-- The calls of a trace, in order. -/
def Outcome.calls (o : Outcome) : List Call :=
  o.trace.map Event.call

/-- The calls of a trace other than log lines, in order. -/
def Outcome.externalCalls (o : Outcome) : List Call :=
  o.calls.filter (fun c => !c.isLog)

/-! ## The routine -/

/-- The two readings of `millis()` a poll may take: at the reboot check (line 15) and at
the shutdown check (line 43).  A poll at one instant `T` has both equal to `T`. -/
structure Clock where
  atReboot : Nat
  atShutdown : Nat
  deriving DecidableEq, Repr

/-- A poll whose two readings of the clock are the same instant. -/
def Clock.instant (t : Nat) : Clock :=
  { atReboot := t, atShutdown := t }

/-- Condition of line 15: `rebootAtMsec && millis() > rebootAtMsec`. -/
def rebootDue (b : Build) (clock : Nat) (s : State) : Bool :=
  s.rebootAtMsec != 0 && decide (millis b clock > s.rebootAtMsec)

/-- Condition of line 43: `shutdownAtMsec && millis() > shutdownAtMsec`. -/
def shutdownDue (b : Build) (clock : Nat) (s : State) : Bool :=
  s.shutdownAtMsec != 0 && decide (millis b clock > s.shutdownAtMsec)

/-- Lines 25-32: the teardown steps of the Portduino arm. -/
def teardown (o : Outcome) : Outcome :=
  let o := o.emit .deInitApiServer
  let o := if o.state.aLinuxInputImpl then o.emit .linuxInputDeInit else o
  let o := o.emit .spiEnd
  let o := o.emit .wireEnd
  let o := o.emit .serial1End
  if o.state.screen then o.emit .deleteScreen else o

/-- Lines 16-40: the body of the reboot branch. -/
def rebootBranch (b : Build) (o : Outcome) : Outcome :=
  let o := o.emit (.log .info .rebooting)
  let o := o.emit .notifyReboot
  match variant b with
  | .esp32 => o.emitNoReturn .espRestart
  | .nrf52 => o.emitNoReturn .nvicSystemReset
  | .rp2040 => o.emitNoReturn .rp2040Reboot
  | .portduino =>
    let o := teardown o
    let o := o.emit (.log .debug .finalReboot)
    o.emitNoReturn .reboot
  | .stm32wl => o.emitNoReturn .halNvicSystemReset
  | .unsupported =>
    let o := o.setRebootAtMsec (sentinel b)
    o.emit (.log .warn .fixmeImplementReboot)

/-- Lines 44-45: the body of the shutdown branch.  `power->shutdown()` is an ordinary call:
the routine goes on to its closing brace after it. -/
def shutdownBranch (o : Outcome) : Outcome :=
  let o := o.setShutdownAtMsec 0
  o.emit .powerShutdown

/-- The routine `powerCommandsCheck` (lines 13-47).  After a reset primitive nothing more of
the routine runs; otherwise the shutdown check of line 43 follows the reboot check. -/
def powerCommandsCheck (b : Build) (c : Clock) (s : State) : Outcome :=
  let o := Outcome.start s
  let o := if rebootDue b c.atReboot o.state then rebootBranch b o else o
  if o.returned then
    if shutdownDue b c.atShutdown o.state then shutdownBranch o else o
  else o

/-! ## Sequences of polls -/

/-- One iteration of the main loop: external code may write either deadline, then the
routine is polled. -/
structure Tick where
  writeReboot : Option Nat
  writeShutdown : Option Nat
  clock : Clock
  deriving DecidableEq, Repr

/-- The external writes of one iteration, applied to the globals. -/
def Tick.apply (b : Build) (t : Tick) (s : State) : State :=
  let s := match t.writeReboot with
    | some v => { s with rebootAtMsec := v % 2 ^ b.wordBits }
    | none => s
  match t.writeShutdown with
  | some v => { s with shutdownAtMsec := v % 2 ^ b.wordBits }
  | none => s

/-- The main loop polling the routine once per tick, until the ticks run out or a poll does
not return. -/
def pollLoop (b : Build) : List Tick → State → Outcome
  | [], s => Outcome.start s
  | t :: ts, s =>
    let o := powerCommandsCheck b t.clock (t.apply b s)
    if o.returned then
      let r := pollLoop b ts o.state
      { state := r.state, trace := o.trace ++ r.trace, returned := r.returned }
    else o

/-! ## Example builds and states -/

/-- A build with none of the `ARCH_*` macros defined and the given word width. -/
def Build.none (w : Nat) : Build :=
  { ARCH_ESP32 := false, ARCH_NRF52 := false, ARCH_RP2040 := false,
    ARCH_PORTDUINO := false, ARCH_STM32WL := false, wordBits := w }

def buildEsp32 : Build := { Build.none 32 with ARCH_ESP32 := true }
def buildNrf52 : Build := { Build.none 32 with ARCH_NRF52 := true }
def buildRp2040 : Build := { Build.none 32 with ARCH_RP2040 := true }
def buildPortduino : Build := { Build.none 32 with ARCH_PORTDUINO := true }
def buildStm32wl : Build := { Build.none 32 with ARCH_STM32WL := true }
def buildUnsupported : Build := Build.none 32

/-- A tick with no external write, polled at one instant. -/
def Tick.quiet (t : Nat) : Tick :=
  { writeReboot := none, writeShutdown := none, clock := Clock.instant t }

/-- Globals with the given deadlines and both pointers null. -/
def State.deadlines (r sh : Nat) : State :=
  { rebootAtMsec := r, shutdownAtMsec := sh, aLinuxInputImpl := false, screen := false }

/-! ## Basic facts about the embedding -/

theorem rebootDue_iff (b : Build) (t : Nat) (s : State) :
    rebootDue b t s = true ↔ s.rebootAtMsec ≠ 0 ∧ s.rebootAtMsec < millis b t := by
  simp [rebootDue]

theorem shutdownDue_iff (b : Build) (t : Nat) (s : State) :
    shutdownDue b t s = true ↔ s.shutdownAtMsec ≠ 0 ∧ s.shutdownAtMsec < millis b t := by
  simp [shutdownDue]

theorem rebootDue_false_of (b : Build) (t : Nat) (s : State)
    (h : s.rebootAtMsec = 0 ∨ millis b t ≤ s.rebootAtMsec) : rebootDue b t s = false := by
  rcases h with h | h
  · simp [rebootDue, h]
  · simp [rebootDue, Nat.not_lt.mpr h]

theorem shutdownDue_false_of (b : Build) (t : Nat) (s : State)
    (h : s.shutdownAtMsec = 0 ∨ millis b t ≤ s.shutdownAtMsec) : shutdownDue b t s = false := by
  rcases h with h | h
  · simp [shutdownDue, h]
  · simp [shutdownDue, Nat.not_lt.mpr h]

@[simp] theorem start_state (s : State) : (Outcome.start s).state = s := rfl

@[simp] theorem start_trace (s : State) : (Outcome.start s).trace = [] := rfl

@[simp] theorem start_returned (s : State) : (Outcome.start s).returned = true := rfl

/-- A poll whose reboot check fails is the shutdown check alone. -/
theorem poll_of_reboot_not_due (b : Build) (c : Clock) (s : State)
    (hr : rebootDue b c.atReboot s = false) :
    powerCommandsCheck b c s =
      if shutdownDue b c.atShutdown s then shutdownBranch (Outcome.start s)
      else Outcome.start s := by
  simp [powerCommandsCheck, hr]

/-- The reboot branch does not return exactly when the platform has a reset primitive. -/
theorem rebootBranch_returned (b : Build) (o : Outcome) (ho : o.returned = true) :
    (rebootBranch b o).returned = !hasResetPrimitive b := by
  unfold rebootBranch hasResetPrimitive
  cases hv : variant b <;>
    simp [Outcome.emit, Outcome.emitNoReturn, Outcome.setRebootAtMsec, ho]

/-- A poll whose reboot check succeeds on a platform with a reset primitive is the reboot
branch alone. -/
theorem poll_of_reboot_due_supported (b : Build) (c : Clock) (s : State)
    (hr : rebootDue b c.atReboot s = true) (hp : hasResetPrimitive b = true) :
    powerCommandsCheck b c s = rebootBranch b (Outcome.start s) := by
  have h := rebootBranch_returned b (Outcome.start s) rfl
  simp [powerCommandsCheck, hr, h, hp]

/-- A poll whose reboot check succeeds on a platform without a reset primitive goes on to
the shutdown check. -/
theorem poll_of_reboot_due_unsupported (b : Build) (c : Clock) (s : State)
    (hr : rebootDue b c.atReboot s = true) (hp : hasResetPrimitive b = false) :
    powerCommandsCheck b c s =
      if shutdownDue b c.atShutdown (rebootBranch b (Outcome.start s)).state
      then shutdownBranch (rebootBranch b (Outcome.start s))
      else rebootBranch b (Outcome.start s) := by
  have h := rebootBranch_returned b (Outcome.start s) rfl
  simp [powerCommandsCheck, hr, h, hp]

/-- The `#else` arm of the reboot branch, written out. -/
theorem rebootBranch_unsupported (b : Build) (s : State) (hp : hasResetPrimitive b = false) :
    rebootBranch b (Outcome.start s) =
      { state := { s with rebootAtMsec := sentinel b },
        trace := [{ call := .log .info .rebooting, globals := s },
                  { call := .notifyReboot, globals := s },
                  { call := .log .warn .fixmeImplementReboot,
                    globals := { s with rebootAtMsec := sentinel b } }],
        returned := true } := by
  have hv : variant b = .unsupported := by simpa [hasResetPrimitive] using hp
  simp [rebootBranch, hv, Outcome.start, Outcome.emit, Outcome.setRebootAtMsec]

theorem toUnsigned_neg_one (w : Nat) : toUnsigned w (-1) = 2 ^ w - 1 := by
  unfold toUnsigned
  have hpos : 0 < 2 ^ w := by positivity
  have hcast : (2 ^ w : Int) = ((2 ^ w : Nat) : Int) := by push_cast; rfl
  rw [hcast]
  generalize 2 ^ w = n at hpos
  have h1 : (-1 : Int) % (n : Int) = ((n - 1 : Nat) : Int) := by
    rw [← Int.add_emod_self, Int.emod_eq_of_lt] <;> omega
  rw [h1]
  exact Int.toNat_natCast _

theorem sentinel_eq (b : Build) : sentinel b = 2 ^ b.wordBits - 1 :=
  toUnsigned_neg_one b.wordBits

theorem millis_le_sentinel (b : Build) (t : Nat) : millis b t ≤ sentinel b := by
  rw [sentinel_eq]
  have : millis b t < 2 ^ b.wordBits := Nat.mod_lt _ (by positivity)
  omega

/-- The shutdown check reads `shutdownAtMsec` only. -/
theorem shutdownDue_congr (b : Build) (t : Nat) (s1 s2 : State)
    (h : s1.shutdownAtMsec = s2.shutdownAtMsec) : shutdownDue b t s1 = shutdownDue b t s2 := by
  simp [shutdownDue, h]

/-- The reboot check reads `rebootAtMsec` only. -/
theorem rebootDue_congr (b : Build) (t : Nat) (s1 s2 : State)
    (h : s1.rebootAtMsec = s2.rebootAtMsec) : rebootDue b t s1 = rebootDue b t s2 := by
  simp [rebootDue, h]

/-- With the sentinel stored, the reboot check fails at every reading of the clock. -/
theorem rebootDue_sentinel (b : Build) (t : Nat) (s : State)
    (h : s.rebootAtMsec = sentinel b) : rebootDue b t s = false :=
  rebootDue_false_of b t s (Or.inr (h ▸ millis_le_sentinel b t))

/-- With `shutdownAtMsec` unset, the shutdown check fails at every reading of the clock. -/
theorem shutdownDue_unset (b : Build) (t : Nat) (s : State)
    (h : s.shutdownAtMsec = 0) : shutdownDue b t s = false :=
  shutdownDue_false_of b t s (Or.inl h)

/-- The reboot branch never writes `shutdownAtMsec`, and no call of it sees a changed one. -/
theorem rebootBranch_shutdownAtMsec (b : Build) (s : State) :
    (rebootBranch b (Outcome.start s)).state.shutdownAtMsec = s.shutdownAtMsec ∧
    ∀ e ∈ (rebootBranch b (Outcome.start s)).trace,
      e.globals.shutdownAtMsec = s.shutdownAtMsec := by
  obtain ⟨r, sh, inp, scr⟩ := s
  cases hv : variant b <;> cases inp <;> cases scr <;>
    simp [rebootBranch, teardown, hv, Outcome.emit, Outcome.emitNoReturn, Outcome.start,
      Outcome.setRebootAtMsec]

/-- The reboot branch never calls `power->shutdown()`. -/
theorem rebootBranch_no_shutdown (b : Build) (s : State) :
    ∀ e ∈ (rebootBranch b (Outcome.start s)).trace, e.call ≠ Call.powerShutdown := by
  obtain ⟨r, sh, inp, scr⟩ := s
  cases hv : variant b <;> cases inp <;> cases scr <;>
    simp [rebootBranch, teardown, hv, Outcome.emit, Outcome.emitNoReturn, Outcome.start,
      Outcome.setRebootAtMsec]

/-- On a platform with a reset primitive the reboot branch writes no global at all. -/
theorem rebootBranch_supported_globals (b : Build) (s : State)
    (hp : hasResetPrimitive b = true) :
    (rebootBranch b (Outcome.start s)).state = s ∧
    ∀ e ∈ (rebootBranch b (Outcome.start s)).trace, e.globals = s := by
  obtain ⟨r, sh, inp, scr⟩ := s
  unfold hasResetPrimitive at hp
  cases hv : variant b <;> cases inp <;> cases scr <;>
    simp [hv] at hp <;>
    simp [rebootBranch, teardown, hv, Outcome.emit, Outcome.emitNoReturn, Outcome.start]

/-- The shutdown branch, written out. -/
theorem shutdownBranch_eq (o : Outcome) :
    shutdownBranch o =
      { state := { o.state with shutdownAtMsec := 0 },
        trace := o.trace ++
          [{ call := .powerShutdown, globals := { o.state with shutdownAtMsec := 0 } }],
        returned := o.returned } := rfl

/-- A poll whose reboot check fails: it returns, leaves `rebootAtMsec` alone, and calls
nothing except, at most, `power->shutdown()`. -/
theorem poll_of_reboot_not_due_facts (b : Build) (c : Clock) (s : State)
    (hr : rebootDue b c.atReboot s = false) :
    (powerCommandsCheck b c s).returned = true ∧
    (powerCommandsCheck b c s).state.rebootAtMsec = s.rebootAtMsec ∧
    ∀ e ∈ (powerCommandsCheck b c s).trace,
      e.call = Call.powerShutdown ∧ e.globals.rebootAtMsec = s.rebootAtMsec := by
  rw [poll_of_reboot_not_due b c s hr]
  cases hs : shutdownDue b c.atShutdown s <;> simp [shutdownBranch_eq]

/-- A poll entered with `shutdownAtMsec` unset never calls `power->shutdown()` and leaves
`shutdownAtMsec` unset. -/
theorem poll_of_shutdown_unset (b : Build) (c : Clock) (s : State)
    (h0 : s.shutdownAtMsec = 0) :
    (powerCommandsCheck b c s).state.shutdownAtMsec = 0 ∧
    ∀ e ∈ (powerCommandsCheck b c s).trace, e.call ≠ Call.powerShutdown := by
  have hb := rebootBranch_shutdownAtMsec b s
  have hn := rebootBranch_no_shutdown b s
  cases hr : rebootDue b c.atReboot s
  · rw [poll_of_reboot_not_due b c s hr]
    simp [shutdownDue_unset b _ s h0, h0]
  · cases hp : hasResetPrimitive b
    · rw [poll_of_reboot_due_unsupported b c s hr hp]
      rw [shutdownDue_unset b _ _ (hb.1.trans h0)]
      simpa [hb.1, h0] using hn
    · rw [poll_of_reboot_due_supported b c s hr hp]
      simpa [hb.1, h0] using hn

/-- Writes of one tick that leave `rebootAtMsec` alone. -/
theorem Tick.apply_rebootAtMsec (b : Build) (t : Tick) (s : State)
    (h : t.writeReboot = none) : (t.apply b s).rebootAtMsec = s.rebootAtMsec := by
  unfold Tick.apply
  rw [h]
  cases t.writeShutdown <;> rfl

/-- Writes of one tick that leave `shutdownAtMsec` alone. -/
theorem Tick.apply_shutdownAtMsec (b : Build) (t : Tick) (s : State)
    (h : t.writeShutdown = none) : (t.apply b s).shutdownAtMsec = s.shutdownAtMsec := by
  unfold Tick.apply
  rw [h]
  cases t.writeReboot <;> rfl

/-- Once the sentinel is stored and nobody writes `rebootAtMsec`, every later poll fails the
reboot check: the loop keeps returning, the sentinel stays, and the only call ever made is
`power->shutdown()`. -/
theorem pollLoop_sentinel (b : Build) (ticks : List Tick) :
    ∀ s : State, s.rebootAtMsec = sentinel b → (∀ t ∈ ticks, t.writeReboot = none) →
      (pollLoop b ticks s).returned = true ∧
      (pollLoop b ticks s).state.rebootAtMsec = sentinel b ∧
      ∀ e ∈ (pollLoop b ticks s).trace,
        e.call = Call.powerShutdown ∧ e.globals.rebootAtMsec = sentinel b := by
  induction ticks with
  | nil => intro s hs _; simp [pollLoop, hs]
  | cons t ts ih =>
    intro s hs hw
    have hs1 : (t.apply b s).rebootAtMsec = sentinel b :=
      (Tick.apply_rebootAtMsec b t s (hw t (List.mem_cons_self _ _))).trans hs
    have hr := rebootDue_sentinel b t.clock.atReboot _ hs1
    obtain ⟨h1, h2, h3⟩ := poll_of_reboot_not_due_facts b t.clock _ hr
    obtain ⟨i1, i2, i3⟩ := ih (powerCommandsCheck b t.clock (t.apply b s)).state
      (h2.trans hs1) (fun u hu => hw u (List.mem_cons_of_mem _ hu))
    simp only [pollLoop, h1, if_true]
    refine ⟨i1, i2, ?_⟩
    intro e he
    rcases List.mem_append.mp he with he | he
    · exact ⟨(h3 e he).1, (h3 e he).2.trans hs1⟩
    · exact i3 e he

/-- Once `shutdownAtMsec` is unset and nobody writes it, no later poll calls
`power->shutdown()`, and `shutdownAtMsec` stays unset. -/
theorem pollLoop_shutdown_unset (b : Build) (ticks : List Tick) :
    ∀ s : State, s.shutdownAtMsec = 0 → (∀ t ∈ ticks, t.writeShutdown = none) →
      (pollLoop b ticks s).state.shutdownAtMsec = 0 ∧
      ∀ e ∈ (pollLoop b ticks s).trace, e.call ≠ Call.powerShutdown := by
  induction ticks with
  | nil => intro s hs _; simp [pollLoop, hs]
  | cons t ts ih =>
    intro s hs hw
    have hs1 : (t.apply b s).shutdownAtMsec = 0 :=
      (Tick.apply_shutdownAtMsec b t s (hw t (List.mem_cons_self _ _))).trans hs
    obtain ⟨h1, h2⟩ := poll_of_shutdown_unset b t.clock _ hs1
    obtain ⟨i1, i2⟩ := ih (powerCommandsCheck b t.clock (t.apply b s)).state h1
      (fun u hu => hw u (List.mem_cons_of_mem _ hu))
    simp only [pollLoop]
    cases hret : (powerCommandsCheck b t.clock (t.apply b s)).returned
    · simpa using ⟨h1, h2⟩
    · simp only [if_true]
      refine ⟨i1, ?_⟩
      intro e he
      rcases List.mem_append.mp he with he | he
      · exact h2 e he
      · exact i2 e he

/-! ## One poll: delivery of a due reboot or shutdown -/

/-- C1 (as stated, refuted at `T = D`): on ESP32 with `rebootAtMsec = 1000`, a poll at
`millis() = 1000` satisfies `T ≥ D` but publishes no notification and invokes no reset. -/
theorem reboot_not_delivered_at_deadline :
    hasResetPrimitive buildEsp32 = true ∧
    (State.deadlines 1000 0).rebootAtMsec ≠ 0 ∧
    millis buildEsp32 (Clock.instant 1000).atReboot ≥ (State.deadlines 1000 0).rebootAtMsec ∧
    (powerCommandsCheck buildEsp32 (Clock.instant 1000) (State.deadlines 1000 0)).calls.count
      .notifyReboot = 0 ∧
    (powerCommandsCheck buildEsp32 (Clock.instant 1000) (State.deadlines 1000 0)).calls.count
      .espRestart = 0 ∧
    (powerCommandsCheck buildEsp32 (Clock.instant 1000) (State.deadlines 1000 0)).trace = [] := by
  decide

/-- C1 (amended to `T > D`): on every platform with a reset primitive, a poll whose reading
of `millis()` is strictly past a pending `rebootAtMsec` publishes exactly one reboot
notification, runs teardown steps if and only if the platform requires teardown (each of
the four unconditional steps once when it does, no teardown step when it does not), and
the reset calls it makes are exactly the platform's own primitive, once. -/
theorem reboot_delivered_past_deadline (b : Build) (c : Clock) (s : State)
    (hp : hasResetPrimitive b = true) (hset : s.rebootAtMsec ≠ 0)
    (hdue : s.rebootAtMsec < millis b c.atReboot) :
    (powerCommandsCheck b c s).calls.count .notifyReboot = 1 ∧
    (powerCommandsCheck b c s).calls.any Call.isTeardown = requiresTeardown b ∧
    (requiresTeardown b = true →
      ∀ x ∈ [Call.deInitApiServer, Call.spiEnd, Call.wireEnd, Call.serial1End],
        (powerCommandsCheck b c s).calls.count x = 1) ∧
    (requiresTeardown b = false →
      ∀ x ∈ (powerCommandsCheck b c s).calls, x.isTeardown = false) ∧
    (powerCommandsCheck b c s).calls.filter Call.isReset = (resetPrimitive (variant b)).toList := by
  have hr : rebootDue b c.atReboot s = true := (rebootDue_iff b _ s).mpr ⟨hset, hdue⟩
  rw [poll_of_reboot_due_supported b c s hr hp]
  obtain ⟨r, sh, inp, scr⟩ := s
  unfold hasResetPrimitive at hp
  cases hv : variant b <;> cases inp <;> cases scr <;>
    simp [hv] at hp <;>
    simp [rebootBranch, teardown, hv, Outcome.emit, Outcome.emitNoReturn, Outcome.start,
      Outcome.calls, requiresTeardown, resetPrimitive, Call.isTeardown, Call.isReset]

/-- C1 witness: ESP32, `rebootAtMsec = 1000`, poll at `millis() = 1001`. -/
theorem reboot_delivered_past_deadline_witness :
    (powerCommandsCheck buildEsp32 (Clock.instant 1001) (State.deadlines 1000 0)).calls.count
      .notifyReboot = 1 ∧
    (powerCommandsCheck buildEsp32 (Clock.instant 1001) (State.deadlines 1000 0)).calls.filter
      Call.isReset = [Call.espRestart] :=
  have h := reboot_delivered_past_deadline buildEsp32 (Clock.instant 1001)
    (State.deadlines 1000 0) (by decide) (by decide) (by decide)
  ⟨h.1, h.2.2.2.2⟩

/-- C2 (as stated, refuted at `T = D`): with no reboot pending and `shutdownAtMsec = 1000`,
a poll at `millis() = 1000` satisfies `T ≥ D` but leaves `shutdownAtMsec` at 1000 and does
not invoke `power->shutdown()`. -/
theorem shutdown_not_delivered_at_deadline :
    (State.deadlines 0 1000).rebootAtMsec = 0 ∧
    (State.deadlines 0 1000).shutdownAtMsec ≠ 0 ∧
    millis buildEsp32 (Clock.instant 1000).atShutdown ≥ (State.deadlines 0 1000).shutdownAtMsec ∧
    (powerCommandsCheck buildEsp32 (Clock.instant 1000)
      (State.deadlines 0 1000)).state.shutdownAtMsec = 1000 ∧
    (powerCommandsCheck buildEsp32 (Clock.instant 1000) (State.deadlines 0 1000)).calls.count
      .powerShutdown = 0 := by
  decide

/-- C2 (amended to `T > D`): with no reboot pending, a poll whose reading of `millis()` is
strictly past a pending `shutdownAtMsec` resets `shutdownAtMsec` to 0 and invokes
`power->shutdown()` exactly once; it is the only call of the poll, and the poll returns. -/
theorem shutdown_delivered_past_deadline (b : Build) (c : Clock) (s : State)
    (hnr : s.rebootAtMsec = 0) (hset : s.shutdownAtMsec ≠ 0)
    (hdue : s.shutdownAtMsec < millis b c.atShutdown) :
    (powerCommandsCheck b c s).state.shutdownAtMsec = 0 ∧
    (powerCommandsCheck b c s).calls.count .powerShutdown = 1 ∧
    (powerCommandsCheck b c s).calls = [Call.powerShutdown] ∧
    (powerCommandsCheck b c s).returned = true := by
  have hr : rebootDue b c.atReboot s = false := rebootDue_false_of b _ s (Or.inl hnr)
  have hs : shutdownDue b c.atShutdown s = true := (shutdownDue_iff b _ s).mpr ⟨hset, hdue⟩
  rw [poll_of_reboot_not_due b c s hr]
  simp [hs, shutdownBranch, Outcome.emit, Outcome.setShutdownAtMsec, Outcome.start,
    Outcome.calls]

/-- C2 witness: no reboot pending, `shutdownAtMsec = 1000`, poll at `millis() = 1001`. -/
theorem shutdown_delivered_past_deadline_witness :
    (powerCommandsCheck buildNrf52 (Clock.instant 1001)
      (State.deadlines 0 1000)).state.shutdownAtMsec = 0 ∧
    (powerCommandsCheck buildNrf52 (Clock.instant 1001) (State.deadlines 0 1000)).calls
      = [Call.powerShutdown] :=
  have h := shutdown_delivered_past_deadline buildNrf52 (Clock.instant 1001)
    (State.deadlines 0 1000) (by decide) (by decide) (by decide)
  ⟨h.1, h.2.2.1⟩

/-- C3: on every platform, a poll in which each deadline is either unset (0) or strictly
later than the reading of `millis()` makes no call at all (the trace is empty, log lines
included), leaves the globals, and so both deadlines, unchanged, and returns. -/
theorem poll_noop_before_deadlines (b : Build) (c : Clock) (s : State)
    (hr : s.rebootAtMsec = 0 ∨ millis b c.atReboot < s.rebootAtMsec)
    (hs : s.shutdownAtMsec = 0 ∨ millis b c.atShutdown < s.shutdownAtMsec) :
    (powerCommandsCheck b c s).trace = [] ∧
    (powerCommandsCheck b c s).state = s ∧
    (powerCommandsCheck b c s).state.rebootAtMsec = s.rebootAtMsec ∧
    (powerCommandsCheck b c s).state.shutdownAtMsec = s.shutdownAtMsec ∧
    (powerCommandsCheck b c s).returned = true := by
  have hr1 : rebootDue b c.atReboot s = false :=
    rebootDue_false_of b _ s (hr.imp id Nat.le_of_lt)
  have hs1 : shutdownDue b c.atShutdown s = false :=
    shutdownDue_false_of b _ s (hs.imp id Nat.le_of_lt)
  rw [poll_of_reboot_not_due b c s hr1]
  simp [hs1]

/-- C3 witness: a reboot cancelled by writing 0 and a shutdown still 4000 ms ahead, polled
on the platform without a reset primitive. -/
theorem poll_noop_before_deadlines_witness :
    (powerCommandsCheck buildUnsupported (Clock.instant 1000) (State.deadlines 0 5000)).trace
      = [] ∧
    (powerCommandsCheck buildUnsupported (Clock.instant 1000) (State.deadlines 0 5000)).state
      = State.deadlines 0 5000 :=
  have h := poll_noop_before_deadlines buildUnsupported (Clock.instant 1000)
    (State.deadlines 0 5000) (Or.inl rfl) (Or.inr (by decide))
  ⟨h.1, h.2.1⟩

/-! ## Sequences of polls: the disabled reboot and the delivered shutdown -/

/-- C4 (as stated, refuted at `T = D`): with no `ARCH_*` macro defined and
`rebootAtMsec = 1000`, the poll at `millis() = 1000` satisfies `T ≥ D` but makes no call and
leaves `rebootAtMsec` at 1000, not at the sentinel; the deadline is still reachable, and
the next poll, at `millis() = 1001`, takes the reboot branch and publishes the
notification. -/
theorem unsupported_reboot_not_disabled_at_deadline :
    hasResetPrimitive buildUnsupported = false ∧
    (State.deadlines 1000 0).rebootAtMsec ≠ 0 ∧
    millis buildUnsupported (Clock.instant 1000).atReboot ≥ (State.deadlines 1000 0).rebootAtMsec ∧
    (powerCommandsCheck buildUnsupported (Clock.instant 1000) (State.deadlines 1000 0)).trace
      = [] ∧
    (powerCommandsCheck buildUnsupported (Clock.instant 1000)
      (State.deadlines 1000 0)).state.rebootAtMsec = 1000 ∧
    (powerCommandsCheck buildUnsupported (Clock.instant 1000)
      (State.deadlines 1000 0)).state.rebootAtMsec ≠ sentinel buildUnsupported ∧
    (pollLoop buildUnsupported [Tick.quiet 1001]
      (powerCommandsCheck buildUnsupported (Clock.instant 1000)
        (State.deadlines 1000 0)).state).calls.count .notifyReboot = 1 := by
  decide

/-- C4 (amended to `T > D`): on a platform with no reset primitive, a poll whose reading of
`millis()` is strictly past a pending `rebootAtMsec` invokes
no reset primitive, returns, and leaves `rebootAtMsec` at the sentinel `(unsigned)-1`, the
largest value of the type; the reboot check fails against it at every value of `millis()`;
and over every later sequence of polls with no external write to `rebootAtMsec` the loop
never takes the reboot branch again: no `Rebooting` log line, no notification, no reset,
every call sees the sentinel, and the sentinel is still stored at the end. -/
theorem unsupported_reboot_disabled_forever (b : Build) (c : Clock) (s : State)
    (hp : hasResetPrimitive b = false) (hset : s.rebootAtMsec ≠ 0)
    (hdue : s.rebootAtMsec < millis b c.atReboot) :
    (∀ x ∈ (powerCommandsCheck b c s).calls, x.isReset = false) ∧
    (powerCommandsCheck b c s).returned = true ∧
    (powerCommandsCheck b c s).state.rebootAtMsec = sentinel b ∧
    sentinel b = 2 ^ b.wordBits - 1 ∧
    (∀ (clock : Nat) (s1 : State), s1.rebootAtMsec = sentinel b → rebootDue b clock s1 = false) ∧
    ∀ ticks : List Tick, (∀ t ∈ ticks, t.writeReboot = none) →
      (pollLoop b ticks (powerCommandsCheck b c s).state).returned = true ∧
      (pollLoop b ticks (powerCommandsCheck b c s).state).state.rebootAtMsec = sentinel b ∧
      (pollLoop b ticks (powerCommandsCheck b c s).state).calls.count .notifyReboot = 0 ∧
      (pollLoop b ticks (powerCommandsCheck b c s).state).calls.count
        (.log .info .rebooting) = 0 ∧
      (∀ x ∈ (pollLoop b ticks (powerCommandsCheck b c s).state).calls, x.isReset = false) ∧
      ∀ e ∈ (pollLoop b ticks (powerCommandsCheck b c s).state).trace,
        e.globals.rebootAtMsec = sentinel b := by
  have hr : rebootDue b c.atReboot s = true := (rebootDue_iff b _ s).mpr ⟨hset, hdue⟩
  have hpoll := poll_of_reboot_due_unsupported b c s hr hp
  have hbr := rebootBranch_unsupported b s hp
  have hst : (powerCommandsCheck b c s).state.rebootAtMsec = sentinel b := by
    rw [hpoll, hbr]; split <;> simp [shutdownBranch_eq]
  refine ⟨?_, ?_, hst, sentinel_eq b, fun clock s1 h => rebootDue_sentinel b clock s1 h, ?_⟩
  · rw [hpoll, hbr]; split <;> simp [shutdownBranch_eq, Outcome.calls, Call.isReset]
  · rw [hpoll, hbr]; split <;> simp [shutdownBranch_eq]
  · intro ticks hw
    obtain ⟨h1, h2, h3⟩ := pollLoop_sentinel b ticks _ hst hw
    refine ⟨h1, h2, ?_, ?_, ?_, fun e he => (h3 e he).2⟩
    · rw [List.count_eq_zero]
      intro hmem
      obtain ⟨e, he, hc⟩ := List.mem_map.mp hmem
      have := (h3 e he).1
      rw [hc] at this
      exact absurd this (by decide)
    · rw [List.count_eq_zero]
      intro hmem
      obtain ⟨e, he, hc⟩ := List.mem_map.mp hmem
      have := (h3 e he).1
      rw [hc] at this
      exact absurd this (by decide)
    · intro x hx
      obtain ⟨e, he, hc⟩ := List.mem_map.mp hx
      rw [← hc, (h3 e he).1]
      rfl

/-- C4 witness: no `ARCH_*` macro defined, 32-bit words, `rebootAtMsec = 1000`, poll at
`millis() = 1001`; afterwards the sentinel `4294967295` is stored. -/
theorem unsupported_reboot_disabled_forever_witness :
    (powerCommandsCheck buildUnsupported (Clock.instant 1001)
      (State.deadlines 1000 0)).returned = true ∧
    (powerCommandsCheck buildUnsupported (Clock.instant 1001)
      (State.deadlines 1000 0)).state.rebootAtMsec = sentinel buildUnsupported ∧
    sentinel buildUnsupported = 2 ^ 32 - 1 :=
  have h := unsupported_reboot_disabled_forever buildUnsupported (Clock.instant 1001)
    (State.deadlines 1000 0) (by decide) (by decide) (by decide)
  ⟨h.2.1, h.2.2.1, h.2.2.2.1⟩

/-- C5: in every poll that invokes `power->shutdown()`, `shutdownAtMsec` is already 0 in
the globals at the moment of that call, the call is made exactly once in the poll, and
over every later sequence of polls (at any readings of the clock, with any external writes
to `rebootAtMsec`, but none to `shutdownAtMsec`) `power->shutdown()` is never invoked
again. -/
theorem shutdown_at_most_once (b : Build) (c : Clock) (s : State)
    (hfire : Call.powerShutdown ∈ (powerCommandsCheck b c s).calls) :
    (∀ e ∈ (powerCommandsCheck b c s).trace,
      e.call = Call.powerShutdown → e.globals.shutdownAtMsec = 0) ∧
    (powerCommandsCheck b c s).calls.count .powerShutdown = 1 ∧
    (powerCommandsCheck b c s).state.shutdownAtMsec = 0 ∧
    ∀ ticks : List Tick, (∀ t ∈ ticks, t.writeShutdown = none) →
      (pollLoop b ticks (powerCommandsCheck b c s).state).calls.count .powerShutdown = 0 ∧
      (pollLoop b ticks (powerCommandsCheck b c s).state).state.shutdownAtMsec = 0 := by
  have hmem : ∃ e ∈ (powerCommandsCheck b c s).trace, e.call = Call.powerShutdown := by
    obtain ⟨e, he, hc⟩ := List.mem_map.mp hfire
    exact ⟨e, he, hc⟩
  have hone : (∀ e ∈ (powerCommandsCheck b c s).trace,
        e.call = Call.powerShutdown → e.globals.shutdownAtMsec = 0) ∧
      (powerCommandsCheck b c s).calls.count .powerShutdown = 1 ∧
      (powerCommandsCheck b c s).state.shutdownAtMsec = 0 := by
    cases hr : rebootDue b c.atReboot s
    · rw [poll_of_reboot_not_due b c s hr] at hmem ⊢
      cases hs : shutdownDue b c.atShutdown s
      · simp [hs] at hmem
      · simp [shutdownBranch_eq, Outcome.calls]
    · cases hp : hasResetPrimitive b
      · rw [poll_of_reboot_due_unsupported b c s hr hp, rebootBranch_unsupported b s hp]
          at hmem ⊢
        cases hs : shutdownDue b c.atShutdown
            { s with rebootAtMsec := sentinel b }
        · simp [hs] at hmem
        · simp [shutdownBranch_eq, Outcome.calls]
      · rw [poll_of_reboot_due_supported b c s hr hp] at hmem
        obtain ⟨e, he, hc⟩ := hmem
        exact absurd hc (rebootBranch_no_shutdown b s e he)
  refine ⟨hone.1, hone.2.1, hone.2.2, ?_⟩
  intro ticks hw
  obtain ⟨h1, h2⟩ := pollLoop_shutdown_unset b ticks _ hone.2.2 hw
  refine ⟨?_, h1⟩
  rw [List.count_eq_zero]
  intro hm
  obtain ⟨e, he, hc⟩ := List.mem_map.mp hm
  exact h2 e he hc

/-- C5 witness: `shutdownAtMsec = 1000` polled at `millis() = 1001` fires the shutdown
branch; a second poll at the same instant does not invoke `power->shutdown()` again. -/
theorem shutdown_at_most_once_witness :
    Call.powerShutdown ∈
      (powerCommandsCheck buildEsp32 (Clock.instant 1001) (State.deadlines 0 1000)).calls ∧
    (pollLoop buildEsp32 [Tick.quiet 1001]
      (powerCommandsCheck buildEsp32 (Clock.instant 1001)
        (State.deadlines 0 1000)).state).calls.count .powerShutdown = 0 :=
  have h := shutdown_at_most_once buildEsp32 (Clock.instant 1001) (State.deadlines 0 1000)
    (by decide)
  ⟨by decide, (h.2.2.2 [Tick.quiet 1001] (by decide)).1⟩

/-! ## Both deadlines due in the same poll -/

/-- C6 (as stated, refuted at `T = RebootDeadline`): on ESP32 with `rebootAtMsec = 1000`
and `shutdownAtMsec = 500`, at `millis() = 1000` both deadlines have expired in the sense
`T ≥ D`, but the reboot check of line 15 fails, no notification or reset is made, and the
poll invokes `power->shutdown()` and clears `shutdownAtMsec`. -/
theorem reboot_at_deadline_does_not_preempt :
    hasResetPrimitive buildEsp32 = true ∧
    (State.deadlines 1000 500).rebootAtMsec ≠ 0 ∧
    millis buildEsp32 (Clock.instant 1000).atReboot ≥ (State.deadlines 1000 500).rebootAtMsec ∧
    (State.deadlines 1000 500).shutdownAtMsec ≠ 0 ∧
    millis buildEsp32 (Clock.instant 1000).atShutdown ≥
      (State.deadlines 1000 500).shutdownAtMsec ∧
    (powerCommandsCheck buildEsp32 (Clock.instant 1000) (State.deadlines 1000 500)).calls
      = [Call.powerShutdown] ∧
    (powerCommandsCheck buildEsp32 (Clock.instant 1000)
      (State.deadlines 1000 500)).state.shutdownAtMsec = 0 ∧
    (powerCommandsCheck buildEsp32 (Clock.instant 1000)
      (State.deadlines 1000 500)).state.shutdownAtMsec ≠
        (State.deadlines 1000 500).shutdownAtMsec := by
  decide

/-- C6 (amended to `T > RebootDeadline`): on every platform with a reset primitive, a poll
whose reading of `millis()` is strictly past a pending `rebootAtMsec`, while
`shutdownAtMsec` is pending and has expired too (`millis()` at or past it), never invokes
`power->shutdown()` and never modifies `shutdownAtMsec` (neither at the end nor at any
call): the reset primitive does not return, so line 43 is not reached, and
`shutdownAtMsec` is still pending and expired when the poll ends. -/
theorem reboot_preempts_shutdown (b : Build) (c : Clock) (s : State)
    (hp : hasResetPrimitive b = true)
    (hrset : s.rebootAtMsec ≠ 0) (hrdue : s.rebootAtMsec < millis b c.atReboot)
    (hsset : s.shutdownAtMsec ≠ 0) (hsdue : s.shutdownAtMsec ≤ millis b c.atShutdown) :
    (Call.powerShutdown ∉ (powerCommandsCheck b c s).calls) ∧
    (powerCommandsCheck b c s).calls.count .powerShutdown = 0 ∧
    (powerCommandsCheck b c s).state.shutdownAtMsec = s.shutdownAtMsec ∧
    (∀ e ∈ (powerCommandsCheck b c s).trace, e.globals.shutdownAtMsec = s.shutdownAtMsec) ∧
    (powerCommandsCheck b c s).returned = false ∧
    (powerCommandsCheck b c s).state.shutdownAtMsec ≠ 0 ∧
    (powerCommandsCheck b c s).state.shutdownAtMsec ≤ millis b c.atShutdown := by
  have hr : rebootDue b c.atReboot s = true := (rebootDue_iff b _ s).mpr ⟨hrset, hrdue⟩
  rw [poll_of_reboot_due_supported b c s hr hp]
  have hsh := rebootBranch_shutdownAtMsec b s
  have hno := rebootBranch_no_shutdown b s
  have hret := rebootBranch_returned b (Outcome.start s) rfl
  have hnot : Call.powerShutdown ∉ (rebootBranch b (Outcome.start s)).calls := by
    intro hm
    obtain ⟨e, he, hc⟩ := List.mem_map.mp hm
    exact hno e he hc
  exact ⟨hnot, List.count_eq_zero.mpr hnot, hsh.1, hsh.2, by simpa [hp] using hret,
    hsh.1 ▸ hsset, hsh.1 ▸ hsdue⟩

/-- C6 witness: Portduino with `rebootAtMsec = 1000` and `shutdownAtMsec = 2000`, polled
at `millis() = 2000`: strictly past the reboot deadline, exactly at the shutdown one. -/
theorem reboot_preempts_shutdown_witness :
    (powerCommandsCheck buildPortduino (Clock.instant 2000)
      (State.deadlines 1000 2000)).calls.count .powerShutdown = 0 ∧
    (powerCommandsCheck buildPortduino (Clock.instant 2000)
      (State.deadlines 1000 2000)).state.shutdownAtMsec = 2000 :=
  have h := reboot_preempts_shutdown buildPortduino (Clock.instant 2000)
    (State.deadlines 1000 2000) (by decide) (by decide) (by decide) (by decide) (by decide)
  ⟨h.2.1, h.2.2.1⟩

/-- C7 (as stated, refuted on the platform without a reset primitive): with no `ARCH_*`
macro defined and both deadlines at 1000, the poll at `millis() = 2000` takes the reboot
branch (it publishes the notification and stores the sentinel) and, in the same poll,
invokes `power->shutdown()` and clears `shutdownAtMsec`. -/
theorem shutdown_not_deferred_when_reboot_returns :
    hasResetPrimitive buildUnsupported = false ∧
    rebootDue buildUnsupported (Clock.instant 2000).atReboot (State.deadlines 1000 1000) = true ∧
    shutdownDue buildUnsupported (Clock.instant 2000).atShutdown
      (State.deadlines 1000 1000) = true ∧
    (powerCommandsCheck buildUnsupported (Clock.instant 2000)
      (State.deadlines 1000 1000)).externalCalls = [Call.notifyReboot, Call.powerShutdown] ∧
    (powerCommandsCheck buildUnsupported (Clock.instant 2000)
      (State.deadlines 1000 1000)).state.shutdownAtMsec = 0 ∧
    (powerCommandsCheck buildUnsupported (Clock.instant 2000)
      (State.deadlines 1000 1000)).state.shutdownAtMsec ≠
        (State.deadlines 1000 1000).shutdownAtMsec := by
  decide

/-- C7 (amended): the shutdown check follows the reboot check whenever the reboot branch
returns.  In a poll in which both checks would succeed: on a platform with a reset
primitive the poll does not invoke `power->shutdown()`, leaves `shutdownAtMsec` pending and
does not return; on a platform without one the same poll publishes the notification,
stores the sentinel, then clears `shutdownAtMsec` and invokes `power->shutdown()` once. -/
theorem both_due_same_poll (b : Build) (c : Clock) (s : State)
    (hrset : s.rebootAtMsec ≠ 0) (hrdue : s.rebootAtMsec < millis b c.atReboot)
    (hsset : s.shutdownAtMsec ≠ 0) (hsdue : s.shutdownAtMsec < millis b c.atShutdown) :
    (hasResetPrimitive b = true →
      (powerCommandsCheck b c s).calls.count .powerShutdown = 0 ∧
      (powerCommandsCheck b c s).state.shutdownAtMsec = s.shutdownAtMsec ∧
      (powerCommandsCheck b c s).returned = false) ∧
    (hasResetPrimitive b = false →
      (powerCommandsCheck b c s).externalCalls = [Call.notifyReboot, Call.powerShutdown] ∧
      (powerCommandsCheck b c s).calls.count .powerShutdown = 1 ∧
      (powerCommandsCheck b c s).state.shutdownAtMsec = 0 ∧
      (powerCommandsCheck b c s).state.rebootAtMsec = sentinel b ∧
      (powerCommandsCheck b c s).returned = true) := by
  have hr : rebootDue b c.atReboot s = true := (rebootDue_iff b _ s).mpr ⟨hrset, hrdue⟩
  have hs : shutdownDue b c.atShutdown s = true := (shutdownDue_iff b _ s).mpr ⟨hsset, hsdue⟩
  constructor
  · intro hp
    rw [poll_of_reboot_due_supported b c s hr hp]
    have hno := rebootBranch_no_shutdown b s
    have hret := rebootBranch_returned b (Outcome.start s) rfl
    refine ⟨?_, (rebootBranch_shutdownAtMsec b s).1, by simpa [hp] using hret⟩
    rw [List.count_eq_zero]
    intro hm
    obtain ⟨e, he, hc⟩ := List.mem_map.mp hm
    exact hno e he hc
  · intro hp
    have hs1 : shutdownDue b c.atShutdown { s with rebootAtMsec := sentinel b } = true :=
      (shutdownDue_congr b _ _ s rfl).trans hs
    rw [poll_of_reboot_due_unsupported b c s hr hp, rebootBranch_unsupported b s hp]
    simp [hs1, shutdownBranch_eq, Outcome.externalCalls, Outcome.calls, Call.isLog]

/-- C7 witness: the ESP32 build and the build without a reset primitive, both deadlines at
1000, polled at `millis() = 2000`. -/
theorem both_due_same_poll_witness :
    (powerCommandsCheck buildEsp32 (Clock.instant 2000)
      (State.deadlines 1000 1000)).state.shutdownAtMsec = 1000 ∧
    (powerCommandsCheck buildUnsupported (Clock.instant 2000)
      (State.deadlines 1000 1000)).calls.count .powerShutdown = 1 :=
  ⟨((both_due_same_poll buildEsp32 (Clock.instant 2000) (State.deadlines 1000 1000)
      (by decide) (by decide) (by decide) (by decide)).1 (by decide)).2.1,
   ((both_due_same_poll buildUnsupported (Clock.instant 2000) (State.deadlines 1000 1000)
      (by decide) (by decide) (by decide) (by decide)).2 (by decide)).2.1⟩

/-! ## The order of calls in the reboot branch -/

/-- C8: on Portduino, a poll whose reading of `millis()` is past a pending `rebootAtMsec`
makes, in this order and nothing else apart from two log lines: the reboot notification,
`deInitApiServer`, `aLinuxInputImpl->deInit` (if and only if `aLinuxInputImpl` is non-null),
`SPI.end`, `Wire.end`, `Serial1.end`, `delete screen` (if and only if `screen` is non-null),
and `reboot` once as the last call, after which the poll does not return.  The full trace
adds `LOG_INFO("Rebooting")` first and `LOG_DEBUG("final reboot!")` just before `reboot`. -/
theorem portduino_reboot_sequence (b : Build) (c : Clock) (s : State)
    (hv : variant b = .portduino) (hset : s.rebootAtMsec ≠ 0)
    (hdue : s.rebootAtMsec < millis b c.atReboot) :
    (powerCommandsCheck b c s).externalCalls =
      [Call.notifyReboot, Call.deInitApiServer]
        ++ (if s.aLinuxInputImpl then [Call.linuxInputDeInit] else [])
        ++ [Call.spiEnd, Call.wireEnd, Call.serial1End]
        ++ (if s.screen then [Call.deleteScreen] else [])
        ++ [Call.reboot] ∧
    (powerCommandsCheck b c s).calls =
      [Call.log .info .rebooting, Call.notifyReboot, Call.deInitApiServer]
        ++ (if s.aLinuxInputImpl then [Call.linuxInputDeInit] else [])
        ++ [Call.spiEnd, Call.wireEnd, Call.serial1End]
        ++ (if s.screen then [Call.deleteScreen] else [])
        ++ [Call.log .debug .finalReboot, Call.reboot] ∧
    (powerCommandsCheck b c s).calls.count .reboot = 1 ∧
    (powerCommandsCheck b c s).returned = false := by
  have hr : rebootDue b c.atReboot s = true := (rebootDue_iff b _ s).mpr ⟨hset, hdue⟩
  have hp : hasResetPrimitive b = true := by simp [hasResetPrimitive, hv]
  rw [poll_of_reboot_due_supported b c s hr hp]
  obtain ⟨r, sh, inp, scr⟩ := s
  cases inp <;> cases scr <;>
    simp [rebootBranch, teardown, hv, Outcome.emit, Outcome.emitNoReturn, Outcome.start,
      Outcome.calls, Outcome.externalCalls, Call.isLog]

/-- C8 witness: Portduino with an input driver and a screen, `rebootAtMsec = 1000`, polled
at `millis() = 1001`. -/
theorem portduino_reboot_sequence_witness :
    (powerCommandsCheck buildPortduino (Clock.instant 1001)
      { rebootAtMsec := 1000, shutdownAtMsec := 0, aLinuxInputImpl := true,
        screen := true }).externalCalls =
      [Call.notifyReboot, Call.deInitApiServer, Call.linuxInputDeInit, Call.spiEnd,
        Call.wireEnd, Call.serial1End, Call.deleteScreen, Call.reboot] :=
  (portduino_reboot_sequence buildPortduino (Clock.instant 1001)
    { rebootAtMsec := 1000, shutdownAtMsec := 0, aLinuxInputImpl := true, screen := true }
    (by decide) (by decide) (by decide)).1

/-- C9: on ESP32, NRF52, RP2040 and STM32WL, a poll whose reading of `millis()` is past a
pending `rebootAtMsec` makes exactly two calls apart from one log line: the reboot
notification, then the platform's own reset primitive (`ESP.restart`, `NVIC_SystemReset`,
`rp2040.reboot`, `HAL_NVIC_SystemReset` respectively).  No teardown step is run, and the
full trace adds only `LOG_INFO("Rebooting")` in front. -/
theorem instant_reset_sequence (b : Build) (c : Clock) (s : State)
    (hv : variant b = .esp32 ∨ variant b = .nrf52 ∨ variant b = .rp2040 ∨ variant b = .stm32wl)
    (hset : s.rebootAtMsec ≠ 0) (hdue : s.rebootAtMsec < millis b c.atReboot) :
    (variant b = .esp32 →
      (powerCommandsCheck b c s).externalCalls = [Call.notifyReboot, Call.espRestart]) ∧
    (variant b = .nrf52 →
      (powerCommandsCheck b c s).externalCalls = [Call.notifyReboot, Call.nvicSystemReset]) ∧
    (variant b = .rp2040 →
      (powerCommandsCheck b c s).externalCalls = [Call.notifyReboot, Call.rp2040Reboot]) ∧
    (variant b = .stm32wl →
      (powerCommandsCheck b c s).externalCalls
        = [Call.notifyReboot, Call.halNvicSystemReset]) ∧
    (powerCommandsCheck b c s).externalCalls.length = 2 ∧
    (powerCommandsCheck b c s).calls =
      [Call.log .info .rebooting, Call.notifyReboot] ++ (resetPrimitive (variant b)).toList ∧
    (∀ x ∈ (powerCommandsCheck b c s).calls, x.isTeardown = false) := by
  have hr : rebootDue b c.atReboot s = true := (rebootDue_iff b _ s).mpr ⟨hset, hdue⟩
  have hp : hasResetPrimitive b = true := by
    rcases hv with h | h | h | h <;> simp [hasResetPrimitive, h]
  rw [poll_of_reboot_due_supported b c s hr hp]
  rcases hv with h | h | h | h <;>
    simp [rebootBranch, h, Outcome.emit, Outcome.emitNoReturn, Outcome.start,
      Outcome.calls, Outcome.externalCalls, Call.isLog, Call.isTeardown, resetPrimitive]

/-- C9 witness: the STM32WL build, `rebootAtMsec = 1000`, polled at `millis() = 1001`. -/
theorem instant_reset_sequence_witness :
    (powerCommandsCheck buildStm32wl (Clock.instant 1001)
      (State.deadlines 1000 0)).externalCalls = [Call.notifyReboot, Call.halNvicSystemReset] :=
  (instant_reset_sequence buildStm32wl (Clock.instant 1001) (State.deadlines 1000 0)
    (by decide) (by decide) (by decide)).2.2.2.1 (by decide)

/-! ## Frame of a poll on the two deadlines -/

/-- C10: for every build, clock and state.  On a platform with a reset primitive
`rebootAtMsec` keeps its value through the poll, at every call (the reset primitive
included) and at the end.  On the platform without one it either keeps its value or the
reboot check succeeded and it holds the sentinel.  `shutdownAtMsec` either keeps its value
or `power->shutdown()` was invoked and it holds 0; at every call it holds its old value or
0.  The reboot branch never writes `shutdownAtMsec` and the shutdown branch never writes
`rebootAtMsec`. -/
theorem poll_frame (b : Build) (c : Clock) (s : State) :
    (hasResetPrimitive b = true →
      (powerCommandsCheck b c s).state.rebootAtMsec = s.rebootAtMsec ∧
      ∀ e ∈ (powerCommandsCheck b c s).trace, e.globals.rebootAtMsec = s.rebootAtMsec) ∧
    (hasResetPrimitive b = false →
      (powerCommandsCheck b c s).state.rebootAtMsec = s.rebootAtMsec ∨
      (rebootDue b c.atReboot s = true ∧
        (powerCommandsCheck b c s).state.rebootAtMsec = sentinel b)) ∧
    ((powerCommandsCheck b c s).state.shutdownAtMsec = s.shutdownAtMsec ∨
      (Call.powerShutdown ∈ (powerCommandsCheck b c s).calls ∧
        (powerCommandsCheck b c s).state.shutdownAtMsec = 0)) ∧
    (∀ e ∈ (powerCommandsCheck b c s).trace,
      e.globals.shutdownAtMsec = s.shutdownAtMsec ∨ e.globals.shutdownAtMsec = 0) ∧
    (∀ o : Outcome, (rebootBranch b o).state.shutdownAtMsec = o.state.shutdownAtMsec) ∧
    (∀ o : Outcome, (shutdownBranch o).state.rebootAtMsec = o.state.rebootAtMsec) := by
  have hbranch : ∀ o : Outcome,
      (rebootBranch b o).state.shutdownAtMsec = o.state.shutdownAtMsec := by
    intro o
    obtain ⟨⟨r, sh, inp, scr⟩, tr, ret⟩ := o
    cases hv : variant b <;> cases inp <;> cases scr <;>
      simp [rebootBranch, teardown, hv, Outcome.emit, Outcome.emitNoReturn,
        Outcome.setRebootAtMsec]
  cases hr : rebootDue b c.atReboot s
  · rw [poll_of_reboot_not_due b c s hr]
    cases hs : shutdownDue b c.atShutdown s
    · simp [hbranch, shutdownBranch_eq]
    · simp [hbranch, shutdownBranch_eq, Outcome.calls]
  · cases hp : hasResetPrimitive b
    · rw [poll_of_reboot_due_unsupported b c s hr hp, rebootBranch_unsupported b s hp]
      cases hs : shutdownDue b c.atShutdown { s with rebootAtMsec := sentinel b }
      · simp [hbranch, shutdownBranch_eq]
      · simp [hbranch, shutdownBranch_eq, Outcome.calls]
    · rw [poll_of_reboot_due_supported b c s hr hp]
      obtain ⟨h1, h2⟩ := rebootBranch_supported_globals b s hp
      refine ⟨fun _ => ⟨by rw [h1], fun e he => by rw [h2 e he]⟩, fun h => by simp at h,
        Or.inl (by rw [h1]), fun e he => Or.inl (by rw [h2 e he]), hbranch, fun _ => rfl⟩

/-- C10 witness: on ESP32 the pending `rebootAtMsec = 1000` is still stored after the poll
that invokes the reset primitive; on the platform without one it holds the sentinel. -/
theorem poll_frame_witness :
    (powerCommandsCheck buildEsp32 (Clock.instant 1001)
      (State.deadlines 1000 0)).state.rebootAtMsec = 1000 ∧
    ((powerCommandsCheck buildUnsupported (Clock.instant 1001)
        (State.deadlines 1000 0)).state.rebootAtMsec = 1000 ∨
      (rebootDue buildUnsupported (Clock.instant 1001).atReboot (State.deadlines 1000 0) = true ∧
        (powerCommandsCheck buildUnsupported (Clock.instant 1001)
          (State.deadlines 1000 0)).state.rebootAtMsec = sentinel buildUnsupported)) :=
  ⟨((poll_frame buildEsp32 (Clock.instant 1001) (State.deadlines 1000 0)).1 (by decide)).1,
   (poll_frame buildUnsupported (Clock.instant 1001) (State.deadlines 1000 0)).2.1
     (by decide)⟩

/-! ## The notification on the platform without a reset primitive; strictness -/

/-- A poll whose reboot check succeeds publishes the notification exactly once, whatever
the platform. -/
theorem poll_of_reboot_due_notify_count (b : Build) (c : Clock) (s : State)
    (hr : rebootDue b c.atReboot s = true) :
    (powerCommandsCheck b c s).calls.count .notifyReboot = 1 := by
  cases hp : hasResetPrimitive b
  · rw [poll_of_reboot_due_unsupported b c s hr hp, rebootBranch_unsupported b s hp]
    split <;> simp [shutdownBranch_eq, Outcome.calls]
  · rw [poll_of_reboot_due_supported b c s hr hp]
    obtain ⟨r, sh, inp, scr⟩ := s
    cases hv : variant b <;> cases inp <;> cases scr <;>
      simp [rebootBranch, teardown, hv, Outcome.emit, Outcome.emitNoReturn, Outcome.start,
        Outcome.setRebootAtMsec, Outcome.calls]

/-- A poll whose reboot check fails publishes no notification. -/
theorem poll_of_reboot_not_due_notify_count (b : Build) (c : Clock) (s : State)
    (hr : rebootDue b c.atReboot s = false) :
    (powerCommandsCheck b c s).calls.count .notifyReboot = 0 := by
  rw [poll_of_reboot_not_due b c s hr]
  split <;> simp [shutdownBranch_eq, Outcome.calls]

/-- The calls of a loop are those of its first poll followed by those of the rest. -/
theorem pollLoop_cons_calls (b : Build) (t : Tick) (ts : List Tick) (s : State)
    (hret : (powerCommandsCheck b t.clock (t.apply b s)).returned = true) :
    (pollLoop b (t :: ts) s).calls =
      (powerCommandsCheck b t.clock (t.apply b s)).calls ++
        (pollLoop b ts (powerCommandsCheck b t.clock (t.apply b s)).state).calls := by
  simp [pollLoop, hret, Outcome.calls]

/-- C11: on a platform with no reset primitive, a poll whose reading of `millis()` is past
a pending `rebootAtMsec` publishes exactly one reboot notification; at the moment of that
call `rebootAtMsec` still holds its pending value, which is not the sentinel, and the
sentinel is stored when the poll ends; no reset primitive is invoked.  Over every later
sequence of polls with no external write to `rebootAtMsec` no further notification is
published, so the total over the firing poll and all later ones is exactly one. -/
theorem unsupported_notifies_exactly_once (b : Build) (c : Clock) (s : State)
    (hp : hasResetPrimitive b = false) (hset : s.rebootAtMsec ≠ 0)
    (hdue : s.rebootAtMsec < millis b c.atReboot) :
    (powerCommandsCheck b c s).calls.count .notifyReboot = 1 ∧
    (∀ e ∈ (powerCommandsCheck b c s).trace, e.call = Call.notifyReboot →
      e.globals.rebootAtMsec = s.rebootAtMsec ∧ e.globals.rebootAtMsec ≠ sentinel b) ∧
    (powerCommandsCheck b c s).state.rebootAtMsec = sentinel b ∧
    (∀ x ∈ (powerCommandsCheck b c s).calls, x.isReset = false) ∧
    ∀ ticks : List Tick, (∀ t ∈ ticks, t.writeReboot = none) →
      (pollLoop b ticks (powerCommandsCheck b c s).state).calls.count .notifyReboot = 0 ∧
      ((powerCommandsCheck b c s).calls ++
        (pollLoop b ticks (powerCommandsCheck b c s).state).calls).count .notifyReboot = 1 ∧
      (pollLoop b ({ writeReboot := none, writeShutdown := none, clock := c } :: ticks)
        s).calls.count .notifyReboot = 1 := by
  have hr : rebootDue b c.atReboot s = true := (rebootDue_iff b _ s).mpr ⟨hset, hdue⟩
  have hpoll := poll_of_reboot_due_unsupported b c s hr hp
  have hbr := rebootBranch_unsupported b s hp
  have hne : s.rebootAtMsec ≠ sentinel b :=
    fun h => absurd (h ▸ hdue) (Nat.not_lt.mpr (millis_le_sentinel b _))
  have hcount := poll_of_reboot_due_notify_count b c s hr
  have hst : (powerCommandsCheck b c s).state.rebootAtMsec = sentinel b := by
    rw [hpoll, hbr]; split <;> simp [shutdownBranch_eq]
  have hret : (powerCommandsCheck b c s).returned = true := by
    rw [hpoll, hbr]; split <;> simp [shutdownBranch_eq]
  refine ⟨hcount, ?_, hst, ?_, ?_⟩
  · rw [hpoll, hbr]; split <;> simp [shutdownBranch_eq, hne]
  · rw [hpoll, hbr]; split <;> simp [shutdownBranch_eq, Outcome.calls, Call.isReset]
  · intro ticks hw
    obtain ⟨-, -, h3⟩ := pollLoop_sentinel b ticks _ hst hw
    have hzero :
        (pollLoop b ticks (powerCommandsCheck b c s).state).calls.count .notifyReboot = 0 := by
      rw [List.count_eq_zero]
      intro hmem
      obtain ⟨e, he, hc⟩ := List.mem_map.mp hmem
      have := (h3 e he).1
      rw [hc] at this
      exact absurd this (by decide)
    have htot : ((powerCommandsCheck b c s).calls ++
        (pollLoop b ticks (powerCommandsCheck b c s).state).calls).count .notifyReboot = 1 := by
      rw [List.count_append, hcount, hzero]
    refine ⟨hzero, htot, ?_⟩
    have happ : Tick.apply b { writeReboot := none, writeShutdown := none, clock := c } s
        = s := rfl
    rw [pollLoop_cons_calls b _ ticks s (by rw [happ]; exact hret), happ]
    exact htot

/-- C11 witness: no `ARCH_*` macro defined, `rebootAtMsec = 1000`, polled at
`millis() = 1001` and then twice more: one notification in all. -/
theorem unsupported_notifies_exactly_once_witness :
    (powerCommandsCheck buildUnsupported (Clock.instant 1001)
      (State.deadlines 1000 0)).calls.count .notifyReboot = 1 ∧
    ((powerCommandsCheck buildUnsupported (Clock.instant 1001) (State.deadlines 1000 0)).calls ++
      (pollLoop buildUnsupported [Tick.quiet 1002, Tick.quiet 5000]
        (powerCommandsCheck buildUnsupported (Clock.instant 1001)
          (State.deadlines 1000 0)).state).calls).count .notifyReboot = 1 :=
  have h := unsupported_notifies_exactly_once buildUnsupported (Clock.instant 1001)
    (State.deadlines 1000 0) (by decide) (by decide) (by decide)
  ⟨h.1, (h.2.2.2.2 [Tick.quiet 1002, Tick.quiet 5000] (by decide)).2.1⟩

/-- The shutdown check is reached, and then decides alone whether `power->shutdown()`
is called: when the reboot check fails, or when the platform has no reset primitive. -/
theorem poll_shutdown_iff_of_reached (b : Build) (c : Clock) (s : State)
    (hreach : rebootDue b c.atReboot s = false ∨ hasResetPrimitive b = false) :
    Call.powerShutdown ∈ (powerCommandsCheck b c s).calls ↔
      shutdownDue b c.atShutdown s = true := by
  cases hr : rebootDue b c.atReboot s
  · rw [poll_of_reboot_not_due b c s hr]
    cases hs : shutdownDue b c.atShutdown s <;> simp [shutdownBranch_eq, Outcome.calls]
  · have hp : hasResetPrimitive b = false := by
      rcases hreach with h | h
      · rw [hr] at h; exact absurd h (by decide)
      · exact h
    have hc : shutdownDue b c.atShutdown { s with rebootAtMsec := sentinel b }
        = shutdownDue b c.atShutdown s := shutdownDue_congr b _ _ s rfl
    rw [poll_of_reboot_due_unsupported b c s hr hp, rebootBranch_unsupported b s hp, hc]
    cases hs : shutdownDue b c.atShutdown s <;> simp [shutdownBranch_eq, Outcome.calls]

/-- C12: both comparisons are strict, for every build, clock and state.  The reboot branch
is taken (the notification is published) if and only if `rebootAtMsec ≠ 0` and `millis()`
is strictly greater than it.  When the shutdown check is reached (the reboot check failed,
or the platform has no reset primitive so the reboot branch returned), the shutdown branch
is taken (`power->shutdown()` is called) if and only if `shutdownAtMsec ≠ 0` and
`millis()` is strictly greater than it.  At `millis() = rebootAtMsec` the poll makes no
call of the reboot branch (every call it makes is `power->shutdown()`) and leaves
`rebootAtMsec` unchanged; at `millis() = shutdownAtMsec` it does not call
`power->shutdown()` and leaves `shutdownAtMsec` unchanged. -/
theorem comparisons_strict (b : Build) (c : Clock) (s : State) :
    (Call.notifyReboot ∈ (powerCommandsCheck b c s).calls ↔
      s.rebootAtMsec ≠ 0 ∧ s.rebootAtMsec < millis b c.atReboot) ∧
    ((rebootDue b c.atReboot s = false ∨ hasResetPrimitive b = false) →
      (Call.powerShutdown ∈ (powerCommandsCheck b c s).calls ↔
        s.shutdownAtMsec ≠ 0 ∧ s.shutdownAtMsec < millis b c.atShutdown)) ∧
    (millis b c.atReboot = s.rebootAtMsec →
      (∀ x ∈ (powerCommandsCheck b c s).calls, x = Call.powerShutdown) ∧
      (powerCommandsCheck b c s).state.rebootAtMsec = s.rebootAtMsec) ∧
    (millis b c.atShutdown = s.shutdownAtMsec →
      Call.powerShutdown ∉ (powerCommandsCheck b c s).calls ∧
      (powerCommandsCheck b c s).state.shutdownAtMsec = s.shutdownAtMsec) := by
  refine ⟨?_, ?_, ?_, ?_⟩
  · rw [← rebootDue_iff]
    cases hr : rebootDue b c.atReboot s
    · have h0 := poll_of_reboot_not_due_notify_count b c s hr
      simpa using List.count_eq_zero.mp h0
    · have h1 := poll_of_reboot_due_notify_count b c s hr
      have hpos : 0 < (powerCommandsCheck b c s).calls.count Call.notifyReboot := by
        rw [h1]; exact Nat.one_pos
      simpa using List.count_pos_iff.mp hpos
  · intro hreach
    rw [← shutdownDue_iff]
    exact poll_shutdown_iff_of_reached b c s hreach
  · intro heq
    have hr : rebootDue b c.atReboot s = false :=
      rebootDue_false_of b _ s (Or.inr (Nat.le_of_eq heq))
    obtain ⟨-, h2, h3⟩ := poll_of_reboot_not_due_facts b c s hr
    refine ⟨?_, h2⟩
    intro x hx
    obtain ⟨e, he, hc⟩ := List.mem_map.mp hx
    rw [← hc]
    exact (h3 e he).1
  · intro heq
    have hs : shutdownDue b c.atShutdown s = false :=
      shutdownDue_false_of b _ s (Or.inr (Nat.le_of_eq heq))
    cases hr : rebootDue b c.atReboot s
    · rw [poll_of_reboot_not_due b c s hr]
      simp [hs, Outcome.calls]
    · cases hp : hasResetPrimitive b
      · have hc : shutdownDue b c.atShutdown { s with rebootAtMsec := sentinel b } = false :=
          (shutdownDue_congr b _ _ s rfl).trans hs
        rw [poll_of_reboot_due_unsupported b c s hr hp, rebootBranch_unsupported b s hp]
        simp [hc, Outcome.calls]
      · rw [poll_of_reboot_due_supported b c s hr hp]
        refine ⟨?_, (rebootBranch_shutdownAtMsec b s).1⟩
        intro hm
        obtain ⟨e, he, hc⟩ := List.mem_map.mp hm
        exact rebootBranch_no_shutdown b s e he hc

/-- C12 witness: with both deadlines at 1000 on the platform without a reset primitive, the
poll at `millis() = 1000` calls nothing of the reboot branch and no shutdown, and the poll
at `millis() = 1001` publishes the notification and calls `power->shutdown()`. -/
theorem comparisons_strict_witness :
    ((∀ x ∈ (powerCommandsCheck buildUnsupported (Clock.instant 1000)
        (State.deadlines 1000 1000)).calls, x = Call.powerShutdown) ∧
      (powerCommandsCheck buildUnsupported (Clock.instant 1000)
        (State.deadlines 1000 1000)).state.rebootAtMsec = 1000) ∧
    (Call.powerShutdown ∉ (powerCommandsCheck buildUnsupported (Clock.instant 1000)
        (State.deadlines 1000 1000)).calls ∧
      (powerCommandsCheck buildUnsupported (Clock.instant 1000)
        (State.deadlines 1000 1000)).state.shutdownAtMsec = 1000) ∧
    Call.notifyReboot ∈ (powerCommandsCheck buildUnsupported (Clock.instant 1001)
        (State.deadlines 1000 1000)).calls ∧
    Call.powerShutdown ∈ (powerCommandsCheck buildUnsupported (Clock.instant 1001)
        (State.deadlines 1000 1000)).calls :=
  ⟨(comparisons_strict buildUnsupported (Clock.instant 1000)
      (State.deadlines 1000 1000)).2.2.1 (by decide),
   (comparisons_strict buildUnsupported (Clock.instant 1000)
      (State.deadlines 1000 1000)).2.2.2 (by decide),
   (comparisons_strict buildUnsupported (Clock.instant 1001)
      (State.deadlines 1000 1000)).1.mpr (by decide),
   ((comparisons_strict buildUnsupported (Clock.instant 1001)
      (State.deadlines 1000 1000)).2.1 (by decide)).mpr (by decide)⟩

end PowerCommands
